import Mathlib

/-!
Shallow embedding of the analysis core of the meteo-IoT repository
(`backend/src/ai-engine.js`, both source units: the deep analysis engine and
the boundary simulator / alert-builder unit).

Modelling conventions:
* JS numbers are modelled as exact rationals (`ℚ`); the forecaster, which uses
  `Math.sin`, is modelled over `ℝ`.
* `x.toFixed(d)` followed by unary `+` is modelled as rounding to `d` decimal
  places with `round` (round half up; JS ties differ only on exact half-ties,
  which no claim exercises).
* `Math.random()` calls are modelled as explicit inputs ranging over the
  documented interval of the corresponding expression.
* An absent or `null`/`undefined` optional reading field is `Option.none`;
  arithmetic comparisons against `none` are `false` (the JS `undefined`/NaN
  semantics; guarded accesses in the source check both `undefined` and `null`).
* Human-readable factor / recommendation / alert-message strings are modelled
  structurally by inductive types carrying the interpolated numeric values
  (with the same rounding the source applies when formatting).
-/

set_option maxRecDepth 16000

namespace MeteoAI

/-- The window capacity `WINDOW_SIZE = 60` from `ai-engine.js`. -/
def WINDOW_SIZE : ℕ := 60

/-- Rounding to 1 decimal place, as JS `+x.toFixed(1)`. -/
def round1 (x : ℚ) : ℚ := (round (10 * x) : ℤ) / 10

/-- Rounding to 3 decimal places, as JS `+x.toFixed(3)`. -/
def round3 (x : ℚ) : ℚ := (round (1000 * x) : ℤ) / 1000

/-- Rounding to 4 decimal places, as JS `+x.toFixed(4)`. -/
def round4 (x : ℚ) : ℚ := (round (10000 * x) : ℤ) / 10000

/-- JS `clamp(value, min, max) = Math.max(min, Math.min(max, value))`. -/
def clampQ (v lo hi : ℚ) : ℚ := max lo (min hi v)

/-- JS relational `field >= c` on a possibly-absent field: `false` when absent. -/
def jsGE (v : Option ℚ) (c : ℚ) : Bool :=
  match v with
  | some x => decide (c ≤ x)
  | none => false

/-- JS relational `field <= c` on a possibly-absent field: `false` when absent. -/
def jsLE (v : Option ℚ) (c : ℚ) : Bool :=
  match v with
  | some x => decide (x ≤ c)
  | none => false

/-- JS relational `field > c` on a possibly-absent field: `false` when absent. -/
def jsGT (v : Option ℚ) (c : ℚ) : Bool :=
  match v with
  | some x => decide (c < x)
  | none => false

/-- JS `v || d` on a numeric field: `d` when the value is absent or `0`
(`0` is falsy in JS). -/
def jsOrQ (v : Option ℚ) (d : ℚ) : ℚ :=
  match v with
  | some x => if x = 0 then d else x
  | none => d

/-- JS `v || d` on an integer value (`0` is falsy). -/
def jsOrZ (v d : ℤ) : ℤ := if v = 0 then d else v

/-- Sum of a list of rationals, as `arr.reduce((a, b) => a + b, 0)`. -/
def sumQ (l : List ℚ) : ℚ := l.foldl (· + ·) 0

/-- Models `+Math.sqrt(q).toFixed(3)`: the square root of a nonnegative
rational rounded half-up to 3 decimal places, computed exactly through integer
square roots.  For `q = a / b` in lowest terms,
`round(1000·√(a/b)) = ⌊1000·√(a/b) + 1/2⌋ = ⌊(2·√(10^6·a·b) + b) / (2·b)⌋`,
and since `⌊(x + c) / m⌋ = ⌊(⌊x⌋ + c) / m⌋` for integer `c, m > 0` and
`⌊2·√N⌋ = Nat.sqrt (4·N)`, this equals `(Nat.sqrt (4·10^6·a·b) + b) / (2·b)`
in natural-number division.  Negative inputs (which cannot arise from a
variance) are sent to `0`. -/
def round3sqrt (q : ℚ) : ℚ :=
  let a := q.num.toNat
  let b := q.den
  (((Nat.sqrt (4 * 1000000 * a * b) + b) / (2 * b) : ℕ) : ℚ) / 1000

/-- One sensor reading (the JS reading object).  Optional numeric fields are
`Option ℚ`; `none` models an absent field.  `timestamp` is epoch seconds.
`is_anomaly` is stored as `1`/`0` in the source; modelled as `Bool`. -/
structure Reading where
  node_id : String := ""
  timestamp : ℤ := 0
  temperature : Option ℚ := none
  humidity : Option ℚ := none
  pressure : Option ℚ := none
  luminosity : Option ℚ := none
  rain_level : Option ℚ := none
  wind_speed : Option ℚ := none
  anomaly_score : Option ℚ := none
  is_anomaly : Bool := false
deriving DecidableEq

instance : Inhabited Reading := ⟨{}⟩

/-- The module-level `windows` map (`Map nodeId -> Array<reading>`),
modelled as an association list in insertion order. -/
def Registry := List (String × List Reading)

/-- The empty registry (fresh module state). -/
def emptyRegistry : Registry := []

/-- `getWindow(nodeId)`: `windows.get(nodeId) || []`. -/
def getWindow (ws : Registry) (nodeId : String) : List Reading :=
  match ws with
  | [] => []
  | (k, v) :: rest => if k = nodeId then v else getWindow rest nodeId

/-- `windows.set(nodeId, win)` on the association-list registry. -/
def setWindow (ws : Registry) (nodeId : String) (w : List Reading) : Registry :=
  match ws with
  | [] => [(nodeId, w)]
  | (k, v) :: rest =>
    if k = nodeId then (nodeId, w) :: rest else (k, v) :: setWindow rest nodeId w

/-- The window-update core of `pushToWindow`: `win.push(reading)` followed by
`if (win.length > WINDOW_SIZE) win.shift()`.  Generic in the element type
(the source never inspects the pushed object). -/
def pushWin (win : List α) (r : α) : List α :=
  let w := win ++ [r]
  if WINDOW_SIZE < w.length then w.tail else w

/-- `pushToWindow(nodeId, reading)`: ensures the node's window exists, pushes
the reading, evicts the oldest entry past capacity, stores the window back in
the registry and returns it. -/
def pushToWindow (ws : Registry) (nodeId : String) (reading : Reading) :
    Registry × List Reading :=
  let win := pushWin (getWindow ws nodeId) reading
  (setWindow ws nodeId win, win)

/-- Pushing a whole sequence of readings for one node, in order. -/
def pushAll (ws : Registry) (nodeId : String) (rs : List Reading) : Registry :=
  rs.foldl (fun s r => (pushToWindow s nodeId r).1) ws

/-- Output record of the `stats` helper. -/
structure Stats where
  mean : ℚ
  std : ℚ
  min : ℚ
  max : ℚ
deriving DecidableEq

/-- The `stats(arr)` helper: mean and population standard deviation rounded to
3 decimal places, plus min and max; all zero on the empty list. -/
def stats (arr : List ℚ) : Stats :=
  match arr with
  | [] => ⟨0, 0, 0, 0⟩
  | x :: xs =>
    let n : ℚ := arr.length
    let mean := sumQ arr / n
    let variance := (arr.foldl (fun a b => a + (b - mean) ^ 2) 0) / n
    ⟨round3 mean, round3sqrt variance, xs.foldl min x, xs.foldl max x⟩

/-- The three fields the z-score / coherence layers iterate over. -/
inductive FieldName
  | temperature
  | humidity
  | pressure
deriving DecidableEq

/-- Field projection used by `win.map(r => r[field])`. -/
def getField (f : FieldName) (r : Reading) : Option ℚ :=
  match f with
  | .temperature => r.temperature
  | .humidity => r.humidity
  | .pressure => r.pressure

/-- Human-readable factor strings of `analyzeReading`, modelled structurally;
each constructor carries the interpolated numeric values with the rounding the
source applies when formatting (`toFixed(1)` on z-scores and deltas,
`Math.round` on elapsed minutes, `toFixed(0)` on humidity deltas). -/
inductive Factor
  | tempCritical (t : ℚ)
  | tempVeryHigh (t : ℚ)
  | tempVeryLow (t : ℚ)
  | freeze (t : ℚ)
  | humSaturated (h : ℚ)
  | airDry (h : ℚ)
  | depression (p : ℚ)
  | anticyclone (p : ℚ)
  | windViolent (w : ℚ)
  | rainTorrential (r : ℚ)
  | zscoreFar (f : FieldName) (z : ℚ)
  | gradTemp (d : ℚ) (m : ℤ)
  | gradPressure (d : ℚ) (m : ℤ)
  | gradHumidity (d : ℤ) (m : ℤ)
  | incoherentDryDepression
  | heatIndex (t h : ℚ)
deriving DecidableEq

/-- Recommendation strings of `analyzeReading`, modelled structurally. -/
inductive Rec
  | checkSensorsOnSite
  | alertFieldTeam
  | activateCooling
  | stormPreparation
  | checkHumiditySensor
  | secureOutdoorEquipment
deriving DecidableEq

/-- `risk_level`: normal | elevated | high | critical. -/
inductive RiskLevel
  | normal
  | elevated
  | high
  | critical
deriving DecidableEq

/-- Ordinal rank of a risk level (normal < elevated < high < critical). -/
def RiskLevel.rank : RiskLevel → ℕ
  | .normal => 0
  | .elevated => 1
  | .high => 2
  | .critical => 3

/-- Output of `analyzeReading`. -/
structure AnalysisResult where
  anomaly_score : ℚ
  is_anomaly : Bool
  factors : List Factor
  risk_level : RiskLevel
  recommendations : List Rec
deriving DecidableEq

/-- Absolute-threshold contribution of the temperature field
(lines 74–80 of `ai-engine.js`): the `>=42 / >=38 / <=8` if-chain plus the
stacking freeze check `t <= 0`. -/
def absTempPart (t? : Option ℚ) : ℚ × List Factor :=
  match t? with
  | none => (0, [])
  | some t =>
    let p1 : ℚ × List Factor :=
      if 42 ≤ t then (0.35, [.tempCritical t])
      else if 38 ≤ t then (0.20, [.tempVeryHigh t])
      else if t ≤ 8 then (0.25, [.tempVeryLow t])
      else (0, [])
    let p2 : ℚ × List Factor := if t ≤ 0 then (0.15, [.freeze t]) else (0, [])
    (p1.1 + p2.1, p1.2 ++ p2.2)

/-- Absolute-threshold contribution of the humidity field (lines 82–85). -/
def absHumPart (h? : Option ℚ) : ℚ × List Factor :=
  match h? with
  | none => (0, [])
  | some h =>
    if 95 ≤ h then (0.22, [.humSaturated h])
    else if h ≤ 15 then (0.20, [.airDry h])
    else (0, [])

/-- Absolute-threshold contribution of the pressure field (lines 87–90). -/
def absPressPart (p? : Option ℚ) : ℚ × List Factor :=
  match p? with
  | none => (0, [])
  | some p =>
    if p ≤ 995 then (0.25, [.depression p])
    else if 1035 ≤ p then (0.15, [.anticyclone p])
    else (0, [])

/-- Per-field absolute-threshold contribution, selected by field name. -/
def absField (f : FieldName) (r : Reading) : ℚ × List Factor :=
  match f with
  | .temperature => absTempPart r.temperature
  | .humidity => absHumPart r.humidity
  | .pressure => absPressPart r.pressure

/-- Wind-speed absolute threshold (lines 92–95): `reading.wind_speed >= 20`
is false on an absent field. -/
def absWindPart (r : Reading) : ℚ × List Factor :=
  if jsGE r.wind_speed 20 then (0.25, [.windViolent (r.wind_speed.getD 0)])
  else (0, [])

/-- Rain-level absolute threshold (lines 96–99). -/
def absRainPart (r : Reading) : ℚ × List Factor :=
  if jsGE r.rain_level 10 then (0.22, [.rainTorrential (r.rain_level.getD 0)])
  else (0, [])

/-- Layer 1 of `analyzeReading`: all absolute-threshold contributions, in the
order the source accumulates them. -/
def absLayer (r : Reading) : ℚ × List Factor :=
  let a := absField .temperature r
  let b := absField .humidity r
  let c := absField .pressure r
  let d := absWindPart r
  let e := absRainPart r
  (a.1 + b.1 + c.1 + d.1 + e.1, a.2 ++ b.2 ++ c.2 ++ d.2 ++ e.2)

/-- Z-score contribution of one field (lines 104–118): window values with the
field present; skipped when fewer than 5, when the rounded standard deviation
is zero, or (NaN semantics) when the scored reading lacks the field. -/
def zField (win : List Reading) (f : FieldName) (r : Reading) : ℚ × List Factor :=
  let values := win.filterMap (getField f)
  if values.length < 5 then (0, [])
  else
    let s := stats values
    if 0 < s.std then
      match getField f r with
      | none => (0, [])
      | some x =>
        let z := |x - s.mean| / s.std
        if 3 < z then (0.18, [.zscoreFar f (round1 z)])
        else if 5 / 2 < z then (0.08, [])
        else (0, [])
    else (0, [])

/-- Layer 2 of `analyzeReading` (lines 101–119): rolling z-scores, only when
the window holds at least 8 readings; fields in source order. -/
def zLayer (win : List Reading) (r : Reading) : ℚ × List Factor :=
  if win.length < 8 then (0, [])
  else
    let a := zField win .temperature r
    let b := zField win .humidity r
    let c := zField win .pressure r
    (a.1 + b.1 + c.1, a.2 ++ b.2 ++ c.2)

/-- Layer 3 of `analyzeReading` (lines 121–142): temporal gradients against the
previous reading when the time delta is in `(0, 600)` seconds.  Absent fields
are defaulted to `0` by the source's `?? 0`. -/
def gradLayer (r : Reading) (previousReading : Option Reading) : ℚ × List Factor :=
  match previousReading with
  | none => (0, [])
  | some prev =>
    let dt : ℤ := r.timestamp - prev.timestamp
    if 0 < dt ∧ dt < 600 then
      let m : ℤ := round ((dt : ℚ) / 60)
      let tempDelta := |r.temperature.getD 0 - prev.temperature.getD 0|
      let pressureDelta := |r.pressure.getD 0 - prev.pressure.getD 0|
      let humDelta := |r.humidity.getD 0 - prev.humidity.getD 0|
      let a : ℚ × List Factor :=
        if 4 < tempDelta then (0.15, [.gradTemp (round1 tempDelta) m]) else (0, [])
      let b : ℚ × List Factor :=
        if 8 < pressureDelta then (0.18, [.gradPressure (round1 pressureDelta) m]) else (0, [])
      let c : ℚ × List Factor :=
        if 20 < humDelta then (0.10, [.gradHumidity (round humDelta) m]) else (0, [])
      (a.1 + b.1 + c.1, a.2 ++ b.2 ++ c.2)
    else (0, [])

/-- Layer 4 of `analyzeReading` (lines 144–157): cross-sensor coherence, only
when temperature, humidity and pressure are all present. -/
def cohLayer (r : Reading) : ℚ × List Factor :=
  match r.temperature, r.humidity, r.pressure with
  | some t, some h, some p =>
    let a : ℚ × List Factor :=
      if p < 1000 ∧ h < 40 then (0.12, [.incoherentDryDepression]) else (0, [])
    let b : ℚ × List Factor :=
      if 35 ≤ t ∧ 70 ≤ h then (0.15, [.heatIndex t h]) else (0, [])
    (a.1 + b.1, a.2 ++ b.2)
  | _, _, _ => (0, [])

/-- The accumulated score of `analyzeReading` before clamping, with the
stochastic term `(Math.random() - 0.4) * 0.03` as explicit input `rand`
(line 160; documented range of `rand` is `[0, 1)`). -/
def rawScore (ws : Registry) (nodeId : String) (r : Reading)
    (previousReading : Option Reading) (rand : ℚ) : ℚ :=
  (absLayer r).1 + (zLayer (getWindow ws nodeId) r).1
    + (gradLayer r previousReading).1 + (cohLayer r).1 + (rand - 0.4) * 0.03

/-- Line 163: `score = Math.max(0, Math.min(1, score))`.  This clamped,
un-rounded score is the value the source compares against every threshold. -/
def clampedScore (ws : Registry) (nodeId : String) (r : Reading)
    (previousReading : Option Reading) (rand : ℚ) : ℚ :=
  max 0 (min 1 (rawScore ws nodeId r previousReading rand))

/-- Lines 167–170: the risk-level step function of the clamped score. -/
def riskOf (score : ℚ) : RiskLevel :=
  if 0.85 ≤ score then .critical
  else if 0.65 ≤ score then .high
  else if 0.40 ≤ score then .elevated
  else .normal

/-- Lines 172–181: recommendations from the risk level and raw fields. -/
def recommendationsOf (r : Reading) (risk : RiskLevel) : List Rec :=
  (if risk = .critical then [Rec.checkSensorsOnSite, Rec.alertFieldTeam] else [])
    ++ (if jsGE r.temperature 40 then [Rec.activateCooling] else [])
    ++ (if jsLE r.pressure 998 then [Rec.stormPreparation] else [])
    ++ (if jsGE r.humidity 95 then [Rec.checkHumiditySensor] else [])
    ++ (if jsGE r.wind_speed 18 then [Rec.secureOutdoorEquipment] else [])

/-- `analyzeReading(nodeId, reading, previousReading)` (lines 60–183), the deep
scorer.  `rand` is the `Math.random()` value of the jitter term.  Note that
`anomaly_score` is the clamped score rounded to 4 decimal places, while
`is_anomaly` and `risk_level` are computed from the un-rounded clamped score. -/
def analyzeReading (ws : Registry) (nodeId : String) (r : Reading)
    (previousReading : Option Reading) (rand : ℚ) : AnalysisResult :=
  let win := getWindow ws nodeId
  let a := absLayer r
  let z := zLayer win r
  let g := gradLayer r previousReading
  let c := cohLayer r
  let score := clampedScore ws nodeId r previousReading rand
  let risk := riskOf score
  { anomaly_score := round4 score
    is_anomaly := decide (0.65 ≤ score)
    factors := a.2 ++ z.2 ++ g.2 ++ c.2
    risk_level := risk
    recommendations := recommendationsOf r risk }

/-- State-passing form of `analyzeReading`: the source function's only access
to the module-level `windows` map is the read `getWindow(nodeId)` on line 102,
so the registry component is returned unchanged. -/
def analyzeReadingSt (ws : Registry) (nodeId : String) (r : Reading)
    (previousReading : Option Reading) (rand : ℚ) : Registry × AnalysisResult :=
  (ws, analyzeReading ws nodeId r previousReading rand)

/-- `calculateAnomalyScore(reading, previousReading)` (lines 388–406), the
boundary-variant scorer of the simulator unit.  `u` is the
`randomBetween(0, 0.08)` value of the stochastic base term; its documented
range is `[0, 0.08)`.  The result is rounded to 3 decimal places by
`fixed(score, 3)` and then clamped to `[0, 1]`. -/
def calculateAnomalyScore (r : Reading) (previousReading : Option Reading)
    (u : ℚ) : ℚ :=
  let base := 0.04 + u
  let s1 : ℚ := if jsGE r.temperature 37 || jsLE r.temperature 15 then 0.28 else 0
  let s2 : ℚ := if jsGE r.humidity 94 || jsLE r.humidity 25 then 0.2 else 0
  let s3 : ℚ := if jsLE r.pressure 1001 || jsGE r.pressure 1024 then 0.18 else 0
  let s4 : ℚ := if jsGE r.wind_speed 15 then 0.2 else 0
  let s5 : ℚ := if jsGE r.rain_level 8 then 0.22 else 0
  let s6 : ℚ :=
    match previousReading with
    | none => 0
    | some prev =>
      (match r.temperature, prev.temperature with
       | some a, some b => if (7 / 2 : ℚ) ≤ |a - b| then 0.14 else 0
       | _, _ => 0)
        + (match r.pressure, prev.pressure with
           | some a, some b => if (6 : ℚ) ≤ b - a then 0.2 else 0
           | _, _ => 0)
  clampQ (round3 (base + s1 + s2 + s3 + s4 + s5 + s6)) 0 1

/-- The scoring tail of `generateSensorReading` (lines 461–468): attach
`anomaly_score = calculateAnomalyScore(reading, previousReading)` and
`is_anomaly = anomalyScore >= 0.7` to the generated reading.  The sensor-value
generation itself (profile + diurnal + noise, lines 408–459) only produces the
input `r` and does not affect this boundary scoring path. -/
def attachAnomaly (r : Reading) (previousReading : Option Reading) (u : ℚ) :
    Reading :=
  let s := calculateAnomalyScore r previousReading u
  { r with anomaly_score := some s, is_anomaly := decide ((0.7 : ℚ) ≤ s) }

/-- Alert types emitted by `buildAlertsFromReading`. -/
inductive AlertType
  | TEMP
  | RAIN
  | WIND
  | PRESSURE
  | ANOMALY
deriving DecidableEq

/-- Alert severities (the spec's enum; the builder uses warning/critical). -/
inductive Severity
  | info
  | warning
  | critical
deriving DecidableEq

/-- Alert message strings, modelled structurally with the interpolated numeric
values (`fixed(drop, 1)` on the pressure drop, `(score*100).toFixed(0)` on the
anomaly percentage; `none` when the score field is absent). -/
inductive AlertMsg
  | tempCritical (t : ℚ)
  | tempHigh (t : ℚ)
  | rainIntense (lvl : ℚ)
  | windStrong (w : ℚ)
  | pressureDrop (d : ℚ)
  | anomalyDetected (pct : Option ℤ)
deriving DecidableEq

/-- One alert candidate (`node_id`/`timestamp` are attached by the caller). -/
structure Alert where
  type : AlertType
  severity : Severity
  message : AlertMsg
deriving DecidableEq

/-- TEMP block of `buildAlertsFromReading` (lines 474–486): mutually exclusive
critical/warning tiers. -/
def tempAlerts (r : Reading) : List Alert :=
  if jsGE r.temperature 38.5 then
    [⟨.TEMP, .critical, .tempCritical (r.temperature.getD 0)⟩]
  else if jsGE r.temperature 36.5 then
    [⟨.TEMP, .warning, .tempHigh (r.temperature.getD 0)⟩]
  else []

/-- RAIN block (lines 488–494). -/
def rainAlerts (r : Reading) : List Alert :=
  if jsGE r.rain_level 10 then
    [⟨.RAIN, .critical, .rainIntense (r.rain_level.getD 0)⟩]
  else []

/-- WIND block (lines 496–502). -/
def windAlerts (r : Reading) : List Alert :=
  if jsGE r.wind_speed 18 then
    [⟨.WIND, .warning, .windStrong (r.wind_speed.getD 0)⟩]
  else []

/-- PRESSURE block (lines 504–513): fires when a previous reading exists and
`previous.pressure - reading.pressure >= 6`. -/
def pressureAlerts (r : Reading) (previousReading : Option Reading) : List Alert :=
  match previousReading with
  | none => []
  | some prev =>
    match prev.pressure, r.pressure with
    | some a, some b =>
      if (6 : ℚ) ≤ a - b then
        [⟨.PRESSURE, .warning, .pressureDrop (round1 (a - b))⟩]
      else []
    | _, _ => []

/-- ANOMALY block (lines 515–521). -/
def anomalyAlerts (r : Reading) : List Alert :=
  if r.is_anomaly then
    [⟨.ANOMALY,
      if jsGT r.anomaly_score 0.85 then .critical else .warning,
      .anomalyDetected (r.anomaly_score.map (fun s => round (s * 100)))⟩]
  else []

/-- `buildAlertsFromReading(reading, previousReading)` (lines 471–524): the
five blocks pushed in source order. -/
def buildAlertsFromReading (r : Reading) (previousReading : Option Reading) :
    List Alert :=
  tempAlerts r ++ rainAlerts r ++ windAlerts r
    ++ pressureAlerts r previousReading ++ anomalyAlerts r

/-- The ambient module state an engine function could read: the window
registry and the `Math.random()` stream. -/
structure Ambient where
  windows : Registry
  randomSeq : ℕ → ℚ

/-- `buildAlertsFromReading` with the ambient state made explicit: the source
body (lines 471–524) references neither the `windows` map nor `Math.random`,
so the ambient argument is unused. -/
def buildAlertsAmb (_amb : Ambient) (r : Reading)
    (previousReading : Option Reading) : List Alert :=
  buildAlertsFromReading r previousReading

/-- `d.getHours() + d.getMinutes() / 60` for an epoch-seconds timestamp
(seconds are truncated by the two getters; the local timezone is modelled as
UTC). -/
def hoursOfDay (ts : ℤ) : ℚ :=
  let sec := ts.emod 86400
  ((sec / 3600 : ℤ) : ℚ) + (((sec.emod 3600) / 60 : ℤ) : ℚ) / 60

noncomputable section

/-- `dayFactor(ts) = Math.sin(((hours - 6) * π) / 12)` (lines 221–225). -/
def dayFactor (ts : ℤ) : ℝ :=
  Real.sin (((hoursOfDay ts : ℝ) - 6) * Real.pi / 12)

end

/-- `linearTrend(values)` (lines 203–214): ordinary least-squares slope of the
values against their index, `0` for fewer than 2 values or zero denominator. -/
def linearTrend (values : List ℚ) : ℚ :=
  let n := values.length
  if n < 2 then 0
  else
    let xMean : ℚ := ((n : ℚ) - 1) / 2
    let yMean : ℚ := sumQ values / n
    let num := values.enum.foldl (fun a p => a + ((p.1 : ℚ) - xMean) * (p.2 - yMean)) 0
    let den := values.enum.foldl (fun a p => a + ((p.1 : ℚ) - xMean) ^ 2) 0
    if den = 0 then 0 else num / den

/-- The four `rand()` draws `(Math.random() - 0.5)` of one forecast horizon,
in call order: temperature, humidity, pressure, probability. -/
structure Noise where
  nTemp : ℝ
  nHum : ℝ
  nPress : ℝ
  nProb : ℝ

/-- Forecast event types. -/
inductive EventType
  | HEATWAVE
  | HEAVY_RAIN
  | FOG
  | STRONG_WIND
  | WEATHER_SHIFT
deriving DecidableEq

/-- One forecast for one horizon (output of `predictForNode`). -/
structure Prediction where
  horizon_hours : ℤ
  predicted_temp : ℝ
  predicted_humidity : ℝ
  predicted_pressure : ℝ
  extreme_event_probability : ℝ
  event_type : Option EventType

noncomputable section

/-- JS `clamp` over the reals. -/
def clampR (v lo hi : ℝ) : ℝ := max lo (min hi v)

/-- `+x.toFixed(1)` over the reals. -/
def round1R (x : ℝ) : ℝ := ((round (10 * x) : ℤ) : ℝ) / 10

/-- `+x.toFixed(0)` over the reals. -/
def round0R (x : ℝ) : ℝ := ((round x : ℤ) : ℝ)

/-- `+x.toFixed(3)` over the reals. -/
def round3R (x : ℝ) : ℝ := ((round (1000 * x) : ℤ) : ℝ) / 1000

/-- `predictForNode(nodeId, horizonHours)` (lines 193–280).  `now` models
`Math.floor(Date.now() / 1000)` (used only when the latest reading has a falsy
timestamp) and `noise` gives the four `rand()` draws of each horizon, indexed
by position in the horizon list. -/
def predictForNode (ws : Registry) (nodeId : String) (horizonHours : List ℤ)
    (now : ℤ) (noise : ℕ → Noise) : Option (List Prediction) :=
  let win := getWindow ws nodeId
  if win.length < 3 then none
  else
    let latest := win.getLastD default
    let temperatures := win.filterMap (fun r => r.temperature)
    let humidities := win.filterMap (fun r => r.humidity)
    let pressures := win.filterMap (fun r => r.pressure)
    let tTrend := linearTrend temperatures
    let hTrend := linearTrend humidities
    let pTrend := linearTrend pressures
    let recentScores := (win.drop (win.length - 10)).map (fun r => r.anomaly_score.getD 0)
    let avgRecentAnomaly := sumQ recentScores / recentScores.length
    some (horizonHours.enum.map (fun ih =>
      let h := ih.2
      let nz := noise ih.1
      let futureTs := jsOrZ latest.timestamp now + h * 3600
      let sun := dayFactor futureTs
      let predictedTemp :=
        clampR (((jsOrQ latest.temperature 28 : ℚ) : ℝ) + (tTrend : ℝ) * (h : ℝ) * 0.3
          + sun * 2.5 + nz.nTemp * 1.2) (-10) 55
      let predictedHumidity :=
        clampR (((jsOrQ latest.humidity 70 : ℚ) : ℝ) + (hTrend : ℝ) * (h : ℝ) * 0.3
          - sun * 6 + nz.nHum * 3) 5 100
      let predictedPressure :=
        clampR (((jsOrQ latest.pressure 1013 : ℚ) : ℝ) + (pTrend : ℝ) * (h : ℝ) * 0.2
          + nz.nPress * 3) 950 1060
      let riskProb : ℝ :=
        0.05
          + (if (38 : ℝ) ≤ predictedTemp then 0.15 else 0)
          + (if predictedTemp ≤ 5 then 0.12 else 0)
          + (if (90 : ℝ) ≤ predictedHumidity then 0.12 else 0)
          + (if predictedPressure ≤ 1002 then 0.18 else 0)
          + (avgRecentAnomaly : ℝ) * 0.25
          + |(tTrend : ℝ)| * 0.08 + |(pTrend : ℝ)| * 0.10 + nz.nProb * 0.05
      let riskProb := clampR riskProb 0.02 0.98
      let eventType : Option EventType :=
        if (0.35 : ℝ) ≤ riskProb then
          some (if (38 : ℝ) ≤ predictedTemp then .HEATWAVE
            else if predictedPressure ≤ 1000 then .HEAVY_RAIN
            else if (92 : ℝ) ≤ predictedHumidity then .FOG
            else .WEATHER_SHIFT)
        else none
      { horizon_hours := h
        predicted_temp := round1R predictedTemp
        predicted_humidity := round0R predictedHumidity
        predicted_pressure := round0R predictedPressure
        extreme_event_probability := round3R riskProb
        event_type := eventType }))

end

/-- A node identifier used for concrete instantiations. -/
def nodeA : String := "node-001"

/-- A reading whose absolute-threshold contributions sum to exactly `0.65`
(temperature `-5` gives `0.25 + 0.15`, pressure `990` gives `0.25`); all other
fields are absent. -/
def cexReading : Reading := { temperature := some (-5), pressure := some 990 }

/-- The scenario reading of claim C4. -/
def c4Reading : Reading :=
  { temperature := some 45, humidity := some 50, pressure := some 1013,
    wind_speed := some 2, rain_level := some 0 }

/-- A reading with an absent temperature field, 60 seconds after `c5Prev`. -/
def c5Reading : Reading := { timestamp := 100, pressure := some 1013 }

/-- The previous reading paired with `c5Reading`: temperature present. -/
def c5Prev : Reading :=
  { timestamp := 40, temperature := some 25, pressure := some 1013 }

/-- A reading with an absent temperature field (witness input). -/
def w5Reading : Reading := { humidity := some 55 }

/-- A window of 8 identical readings: zero temperature variance. -/
def c6Window : List Reading := List.replicate 8 { temperature := some 20 }

/-- A registry holding a 3-reading window for `nodeA`. -/
def c7Registry : Registry :=
  setWindow emptyRegistry nodeA (List.replicate 3 default)

/-- A sequence of `WINDOW_SIZE + 1` readings. -/
def c3Readings : List Reading := List.replicate 61 default

/-- The reading with every optional scalar field defaulted to `0` when absent,
as the gradient layer's `?? 0` effectively sees it. -/
def zeroDefault (r : Reading) : Reading :=
  { r with
    temperature := some (r.temperature.getD 0)
    humidity := some (r.humidity.getD 0)
    pressure := some (r.pressure.getD 0) }

section Lemmas

/-- `round` is monotone on a linear ordered field with floor. -/
theorem roundMono {α : Type} [LinearOrderedField α] [FloorRing α] {x y : α}
    (h : x ≤ y) : round x ≤ round y := by
  rw [round_eq, round_eq]
  exact Int.floor_le_floor (by linarith)

/-- `round4` is monotone. -/
theorem round4Mono {x y : ℚ} (h : x ≤ y) : round4 x ≤ round4 y := by
  unfold round4
  have : round (10000 * x) ≤ round (10000 * y) := roundMono (by linarith)
  have hc : ((round (10000 * x) : ℤ) : ℚ) ≤ ((round (10000 * y) : ℤ) : ℚ) := by
    exact_mod_cast this
  linarith

/-- `round4` moves its argument by at most half an ulp. -/
theorem round4Near (x : ℚ) : |round4 x - x| ≤ 1 / 20000 := by
  unfold round4
  have h := abs_sub_round (10000 * x)
  rw [abs_sub_comm] at h
  have : (round (10000 * x) : ℚ) / 10000 - x = ((round (10000 * x) : ℚ) - 10000 * x) / 10000 := by
    ring
  rw [this, abs_div]
  rw [show |(10000 : ℚ)| = 10000 from by norm_num]
  linarith [h]

/-- The risk-level step function is monotone in the score. -/
theorem riskOfMono {x y : ℚ} (h : x ≤ y) :
    (riskOf x).rank ≤ (riskOf y).rank := by
  unfold riskOf
  split_ifs <;> simp [RiskLevel.rank] <;> linarith

/-- The clamped score lies in `[0, 1]`. -/
theorem clampedScore_mem (ws : Registry) (nodeId : String) (r : Reading)
    (prev : Option Reading) (rand : ℚ) :
    0 ≤ clampedScore ws nodeId r prev rand ∧ clampedScore ws nodeId r prev rand ≤ 1 := by
  unfold clampedScore
  constructor
  · exact le_max_left 0 _
  · exact max_le (by norm_num) (min_le_left 1 _)

/-- Validation of the integer-square-root formula behind `round3sqrt`: for
`a / b` with `b > 0`, `(Nat.sqrt (4·10^6·a·b) + b) / (2·b)` in natural-number
division is exactly `round(1000·√(a/b))`. -/
theorem roundKey (a b : ℕ) (hb : 0 < b) :
    round (1000 * Real.sqrt ((a : ℝ) / (b : ℝ)))
      = (((Nat.sqrt (4 * 1000000 * a * b) + b) / (2 * b) : ℕ) : ℤ) := by
  have hbR : (0 : ℝ) < (b : ℝ) := by exact_mod_cast hb
  have hbne : (b : ℝ) ≠ 0 := ne_of_gt hbR
  have hsqrtN : Real.sqrt ((4 * 1000000 * a * b : ℕ) : ℝ)
      = 2000 * (b : ℝ) * Real.sqrt ((a : ℝ) / (b : ℝ)) := by
    rw [show ((4 * 1000000 * a * b : ℕ) : ℝ)
        = (2000 * (b : ℝ)) ^ 2 * ((a : ℝ) / (b : ℝ)) from by
      push_cast
      field_simp
      ring]
    rw [Real.sqrt_mul (by positivity), Real.sqrt_sq (by positivity)]
  have harg : 1000 * Real.sqrt ((a : ℝ) / (b : ℝ)) + 1 / 2
      = (Real.sqrt ((4 * 1000000 * a * b : ℕ) : ℝ) + ((b : ℕ) : ℝ)) / ((2 * b : ℕ) : ℝ) := by
    rw [hsqrtN]
    push_cast
    field_simp
    ring
  rw [round_eq, harg]
  have hnonneg : (0 : ℝ)
      ≤ (Real.sqrt ((4 * 1000000 * a * b : ℕ) : ℝ) + ((b : ℕ) : ℝ)) / ((2 * b : ℕ) : ℝ) := by
    positivity
  rw [← Int.natCast_floor_eq_floor hnonneg]
  rw [Nat.floor_div_nat, Nat.floor_add_nat (Real.sqrt_nonneg _)]
  rw [Real.nat_floor_real_sqrt_eq_nat_sqrt]

/-- `round3sqrt` is exactly `+Math.sqrt(q).toFixed(3)` under the exact-real
semantics: the real square root times 1000, rounded half-up, divided by
1000. -/
theorem round3sqrt_eq (q : ℚ) (hq : 0 ≤ q) :
    round3sqrt q = ((round (1000 * Real.sqrt (q : ℝ)) : ℤ) : ℚ) / 1000 := by
  have ha : (q.num.toNat : ℤ) = q.num := Int.toNat_of_nonneg (Rat.num_nonneg.mpr hq)
  have hcast : (q : ℝ) = (q.num.toNat : ℝ) / (q.den : ℝ) := by
    rw [Rat.cast_def]
    congr 1
    exact_mod_cast ha.symm
  rw [hcast, roundKey q.num.toNat q.den q.pos]
  unfold round3sqrt
  dsimp only
  rw [Int.cast_natCast]

end Lemmas

/-- C1, counterexample.  The claim "is_anomaly is true if and only if
anomaly_score is at or above the threshold (0.65 for `analyzeReading`)" is
false as stated: for the reading with temperature `-5` and pressure `990`
(absolute layer exactly `0.65`) and the jitter input `rand = 2/5 - 1/3000`
(jitter `-0.00001`, in the documented range), the clamped score is `0.64999`,
so the reported `anomaly_score` rounds up to `0.65` — at the threshold — while
`is_anomaly` is `false`. -/
theorem C1_cex :
    (0.65 : ℚ) ≤ (analyzeReading emptyRegistry nodeA cexReading none (2 / 5 - 1 / 3000)).anomaly_score
    ∧ (analyzeReading emptyRegistry nodeA cexReading none (2 / 5 - 1 / 3000)).is_anomaly = false := by
  constructor
  · with_unfolding_all decide
  · with_unfolding_all decide

/-- C1 (amended): for every reading scored by either variant, the resulting
`anomaly_score` lies in `[0, 1]`, for every jitter input; for the deep scorer
`analyzeReading`, `is_anomaly` holds iff the clamped **pre-rounding** score is
at least `0.65` (the reported `anomaly_score` is that score rounded to 4
decimal places, hence within `1/20000` of it); for the boundary path in
`generateSensorReading`, `is_anomaly` holds iff the reported `anomaly_score`
is at least `0.70` exactly. -/
theorem C1_amended_thm (ws : Registry) (nodeId : String) (r : Reading)
    (prev : Option Reading) (rand : ℚ) (rb : Reading) (prevb : Option Reading)
    (u : ℚ) :
    (0 ≤ (analyzeReading ws nodeId r prev rand).anomaly_score
      ∧ (analyzeReading ws nodeId r prev rand).anomaly_score ≤ 1)
    ∧ ((analyzeReading ws nodeId r prev rand).is_anomaly = true
        ↔ (0.65 : ℚ) ≤ clampedScore ws nodeId r prev rand)
    ∧ |(analyzeReading ws nodeId r prev rand).anomaly_score
        - clampedScore ws nodeId r prev rand| ≤ 1 / 20000
    ∧ (0 ≤ calculateAnomalyScore rb prevb u ∧ calculateAnomalyScore rb prevb u ≤ 1)
    ∧ ((attachAnomaly rb prevb u).is_anomaly = true
        ↔ (0.7 : ℚ) ≤ (attachAnomaly rb prevb u).anomaly_score.getD 0) := by
  obtain ⟨hc0, hc1⟩ := clampedScore_mem ws nodeId r prev rand
  have hscore : (analyzeReading ws nodeId r prev rand).anomaly_score
      = round4 (clampedScore ws nodeId r prev rand) := rfl
  refine ⟨⟨?_, ?_⟩, ?_, ?_, ⟨?_, ?_⟩, ?_⟩
  · rw [hscore]
    have : round4 0 ≤ round4 (clampedScore ws nodeId r prev rand) := round4Mono hc0
    simpa [show round4 0 = 0 from by with_unfolding_all decide] using this
  · rw [hscore]
    have : round4 (clampedScore ws nodeId r prev rand) ≤ round4 1 := round4Mono hc1
    simpa [show round4 1 = 1 from by with_unfolding_all decide] using this
  · rw [show (analyzeReading ws nodeId r prev rand).is_anomaly
        = decide ((0.65 : ℚ) ≤ clampedScore ws nodeId r prev rand) from rfl]
    exact decide_eq_true_iff
  · rw [hscore]
    exact round4Near _
  · exact le_max_left 0 _
  · exact max_le (by norm_num) (min_le_left 1 _)
  · rw [show (attachAnomaly rb prevb u).is_anomaly
        = decide ((0.7 : ℚ) ≤ calculateAnomalyScore rb prevb u) from rfl]
    rw [show (attachAnomaly rb prevb u).anomaly_score.getD 0
        = calculateAnomalyScore rb prevb u from rfl]
    exact decide_eq_true_iff

/-- C2, counterexample.  With the same reading and two jitter inputs
(`2/5 - 1/3000` and `2/5`), the two results report the same `anomaly_score`
(`0.65`) but different `risk_level`s (`elevated` vs `high`): `risk_level` is
not a function of the reported `anomaly_score`, and a result whose reported
score is `0.65 ≥ 0.65` carries risk level `elevated`, not `high`. -/
theorem C2_cex :
    (analyzeReading emptyRegistry nodeA cexReading none (2 / 5 - 1 / 3000)).anomaly_score
      = (analyzeReading emptyRegistry nodeA cexReading none (2 / 5)).anomaly_score
    ∧ (analyzeReading emptyRegistry nodeA cexReading none (2 / 5 - 1 / 3000)).risk_level
      = RiskLevel.elevated
    ∧ (analyzeReading emptyRegistry nodeA cexReading none (2 / 5)).risk_level
      = RiskLevel.high := by
  refine ⟨by with_unfolding_all decide, by with_unfolding_all decide, by with_unfolding_all decide⟩

/-- C2 (amended): `risk_level` is the non-decreasing step function (critical at
`0.85`, high at `0.65`, elevated at `0.40`) of the clamped **pre-rounding**
score, not of the reported rounded `anomaly_score`: every result's
`risk_level` equals `riskOf` of its clamped score (so two results with equal
clamped score have equal risk level), and the rank is monotone in that
score. -/
theorem C2_amended_thm (ws₁ : Registry) (n₁ : String) (r₁ : Reading)
    (p₁ : Option Reading) (a₁ : ℚ) (ws₂ : Registry) (n₂ : String) (r₂ : Reading)
    (p₂ : Option Reading) (a₂ : ℚ)
    (h : clampedScore ws₁ n₁ r₁ p₁ a₁ ≤ clampedScore ws₂ n₂ r₂ p₂ a₂) :
    (analyzeReading ws₁ n₁ r₁ p₁ a₁).risk_level = riskOf (clampedScore ws₁ n₁ r₁ p₁ a₁)
    ∧ (analyzeReading ws₂ n₂ r₂ p₂ a₂).risk_level = riskOf (clampedScore ws₂ n₂ r₂ p₂ a₂)
    ∧ ((analyzeReading ws₁ n₁ r₁ p₁ a₁).risk_level).rank
        ≤ ((analyzeReading ws₂ n₂ r₂ p₂ a₂).risk_level).rank := by
  refine ⟨rfl, rfl, ?_⟩
  rw [show (analyzeReading ws₁ n₁ r₁ p₁ a₁).risk_level
      = riskOf (clampedScore ws₁ n₁ r₁ p₁ a₁) from rfl]
  rw [show (analyzeReading ws₂ n₂ r₂ p₂ a₂).risk_level
      = riskOf (clampedScore ws₂ n₂ r₂ p₂ a₂) from rfl]
  exact riskOfMono h

/-- Witness for `C2_amended_thm` at two concrete scorer runs. -/
theorem C2_amended_witness :
    (clampedScore emptyRegistry nodeA cexReading none 0
      ≤ clampedScore emptyRegistry nodeA cexReading none (1 / 2))
    ∧ ((analyzeReading emptyRegistry nodeA cexReading none 0).risk_level
        = riskOf (clampedScore emptyRegistry nodeA cexReading none 0)
      ∧ (analyzeReading emptyRegistry nodeA cexReading none (1 / 2)).risk_level
        = riskOf (clampedScore emptyRegistry nodeA cexReading none (1 / 2))
      ∧ ((analyzeReading emptyRegistry nodeA cexReading none 0).risk_level).rank
        ≤ ((analyzeReading emptyRegistry nodeA cexReading none (1 / 2)).risk_level).rank) :=
  ⟨by with_unfolding_all decide,
    C2_amended_thm emptyRegistry nodeA cexReading none 0
      emptyRegistry nodeA cexReading none (1 / 2) (by with_unfolding_all decide)⟩

/-- C4, counterexample.  For the scenario reading
`{temperature:45, humidity:50, pressure:1013, wind_speed:2, rain_level:0}`
with an empty window and no previous reading, the absolute layer contributes
exactly `0.35`, but at jitter input `0` (jitter `-0.012`, in the documented
range) the reported `anomaly_score` is `0.338 < 0.35` and the risk level is
`normal`, not at least `elevated` — the claim's "anomaly_score ≥ 0.35" and
"risk_level at least elevated" both fail. -/
theorem C4_cex :
    (absLayer c4Reading).1 = 0.35
    ∧ (analyzeReading emptyRegistry nodeA c4Reading none 0).anomaly_score < 0.35
    ∧ (analyzeReading emptyRegistry nodeA c4Reading none 0).risk_level = RiskLevel.normal := by
  refine ⟨by with_unfolding_all decide, by with_unfolding_all decide, by with_unfolding_all decide⟩

/-- C4 (amended): for the scenario reading with an empty window and no
previous reading, the absolute-threshold layer contributes exactly `0.35`
(critical temperature), and for every jitter input in its documented range the
reported `anomaly_score` lies in `[0.338, 0.368]` (`0.35` plus the jitter
range) and `risk_level` is `normal` (the score never reaches the `0.40`
elevated boundary). -/
theorem C4_amended_thm (nodeId : String) (rand : ℚ) (h0 : 0 ≤ rand)
    (h1 : rand < 1) :
    (absLayer c4Reading).1 = 0.35
    ∧ (0.338 : ℚ) ≤ (analyzeReading emptyRegistry nodeId c4Reading none rand).anomaly_score
    ∧ (analyzeReading emptyRegistry nodeId c4Reading none rand).anomaly_score ≤ 0.368
    ∧ (analyzeReading emptyRegistry nodeId c4Reading none rand).risk_level = RiskLevel.normal := by
  have hw : getWindow emptyRegistry nodeId = [] := rfl
  have habs : (absLayer c4Reading).1 = 7 / 20 := by with_unfolding_all decide
  have hz : (zLayer [] c4Reading).1 = 0 := by with_unfolding_all decide
  have hg : (gradLayer c4Reading none).1 = 0 := by with_unfolding_all decide
  have hco : (cohLayer c4Reading).1 = 0 := by with_unfolding_all decide
  have hraw : rawScore emptyRegistry nodeId c4Reading none rand
      = 7 / 20 + (rand - 2 / 5) * (3 / 100) := by
    unfold rawScore
    rw [hw, habs, hz, hg, hco]
    norm_num
  have hlo : (169 / 500 : ℚ) ≤ rawScore emptyRegistry nodeId c4Reading none rand := by
    rw [hraw]; linarith
  have hhi : rawScore emptyRegistry nodeId c4Reading none rand ≤ 46 / 125 := by
    rw [hraw]; linarith
  have hclamp : clampedScore emptyRegistry nodeId c4Reading none rand
      = rawScore emptyRegistry nodeId c4Reading none rand := by
    unfold clampedScore
    rw [min_eq_right (by linarith), max_eq_right (by linarith)]
  have hscore : (analyzeReading emptyRegistry nodeId c4Reading none rand).anomaly_score
      = round4 (clampedScore emptyRegistry nodeId c4Reading none rand) := rfl
  refine ⟨by rw [show (0.35 : ℚ) = 7 / 20 from by norm_num]; exact habs, ?_, ?_, ?_⟩
  · rw [hscore, hclamp]
    have := round4Mono hlo
    rw [show round4 (169 / 500) = 169 / 500 from by with_unfolding_all decide] at this
    exact le_trans (by norm_num) this
  · rw [hscore, hclamp]
    have := round4Mono hhi
    rw [show round4 (46 / 125) = 46 / 125 from by with_unfolding_all decide] at this
    exact le_trans this (by norm_num)
  · rw [show (analyzeReading emptyRegistry nodeId c4Reading none rand).risk_level
        = riskOf (clampedScore emptyRegistry nodeId c4Reading none rand) from rfl]
    rw [hclamp]
    unfold riskOf
    rw [if_neg (by rw [hraw]; intro hc; norm_num at hc; linarith)]
    rw [if_neg (by rw [hraw]; intro hc; norm_num at hc; linarith)]
    rw [if_neg (by rw [hraw]; intro hc; norm_num at hc; linarith)]

/-- Witness for `C4_amended_thm` at jitter input `1/2`. -/
theorem C4_witness :
    ((0 : ℚ) ≤ 1 / 2 ∧ (1 / 2 : ℚ) < 1)
    ∧ ((absLayer c4Reading).1 = 0.35
      ∧ (0.338 : ℚ) ≤ (analyzeReading emptyRegistry nodeA c4Reading none (1 / 2)).anomaly_score
      ∧ (analyzeReading emptyRegistry nodeA c4Reading none (1 / 2)).anomaly_score ≤ 0.368
      ∧ (analyzeReading emptyRegistry nodeA c4Reading none (1 / 2)).risk_level = RiskLevel.normal) :=
  ⟨⟨by norm_num, by norm_num⟩, C4_amended_thm nodeA (1 / 2) (by norm_num) (by norm_num)⟩

/-- C5, counterexample.  `c5Reading` has an absent temperature field, yet the
temporal-gradient layer of `analyzeReading` computes the temperature delta
against the `?? 0` zero default (`|0 - 25| = 25 > 4`) and contributes the
`0.15` penalty: with an empty window and jitter input `2/5` (jitter `0`) the
whole reported `anomaly_score` is that gradient penalty, `0.15`.  This refutes
"a null field never contributes a gradient-layer penalty computed against a
zero default". -/
theorem C5_cex :
    c5Reading.temperature = none
    ∧ (gradLayer c5Reading (some c5Prev)).1 = 0.15
    ∧ (analyzeReading emptyRegistry nodeA c5Reading (some c5Prev) (2 / 5)).anomaly_score
        = 0.15 := by
  refine ⟨rfl, by with_unfolding_all decide, by with_unfolding_all decide⟩

/-- C5 (amended): a reading field that is absent is excluded from the
absolute-threshold layer, the z-score layer (which also emits no factor for
it) and the cross-sensor coherence layer (which requires all three fields);
the temporal-gradient layer, however, defaults absent fields to `0` — its
result on any pair of readings equals its result on the same readings with
every absent optional field replaced by `0` — so an absent field can
contribute a gradient penalty computed against the zero default. -/
theorem C5_amended_thm (f : FieldName) (r : Reading) (win : List Reading)
    (h : getField f r = none) :
    (absField f r).1 = 0 ∧ (absField f r).2 = []
    ∧ zField win f r = (0, [])
    ∧ cohLayer r = (0, [])
    ∧ ∀ (r' : Reading) (p' : Reading),
        gradLayer r' (some p') = gradLayer (zeroDefault r') (some (zeroDefault p')) := by
  refine ⟨?_, ?_, ?_, ?_, ?_⟩
  · cases f <;> simp only [getField] at h <;> simp [absField, absTempPart, absHumPart, absPressPart, h]
  · cases f <;> simp only [getField] at h <;> simp [absField, absTempPart, absHumPart, absPressPart, h]
  · unfold zField
    dsimp only
    split_ifs with h1 h2
    · rfl
    · rw [h]
    · rfl
  · cases f <;> simp only [getField] at h
    · cases hh : r.humidity <;> cases hp : r.pressure <;> simp [cohLayer, h, hh, hp]
    · cases ht : r.temperature <;> cases hp : r.pressure <;> simp [cohLayer, h, ht, hp]
    · cases ht : r.temperature <;> cases hh : r.humidity <;> simp [cohLayer, h, ht, hh]
  · intro r' p'
    rfl

/-- Witness for `C5_amended_thm`: `w5Reading` has no temperature field. -/
theorem C5_witness :
    getField FieldName.temperature w5Reading = none
    ∧ ((absField FieldName.temperature w5Reading).1 = 0
      ∧ (absField FieldName.temperature w5Reading).2 = []
      ∧ zField [] FieldName.temperature w5Reading = (0, [])
      ∧ cohLayer w5Reading = (0, [])
      ∧ ∀ (r' : Reading) (p' : Reading),
          gradLayer r' (some p') = gradLayer (zeroDefault r') (some (zeroDefault p'))) :=
  ⟨rfl, C5_amended_thm FieldName.temperature w5Reading [] rfl⟩

/-- C6: the z-score layer never divides by zero — whenever the (rounded)
standard deviation of a field's window values is `0`, that field's z-score
branch is skipped and contributes `0` (and no factor); and the `stats` helper
on the empty list returns mean `0` and standard deviation `0` (and min/max
`0`) rather than dividing by the zero length. -/
theorem C6_thm (win : List Reading) (f : FieldName) (r : Reading)
    (h : (stats (win.filterMap (getField f))).std = 0) :
    zField win f r = (0, []) ∧ stats [] = ⟨0, 0, 0, 0⟩ := by
  refine ⟨?_, rfl⟩
  unfold zField
  dsimp only
  split_ifs with h1 h2
  · rfl
  · exfalso
    rw [h] at h2
    exact lt_irrefl 0 h2
  · rfl

/-- Witness for `C6_thm` on a window of 8 identical readings. -/
theorem C6_witness :
    (stats (c6Window.filterMap (getField FieldName.temperature))).std = 0
    ∧ (zField c6Window FieldName.temperature ({} : Reading) = (0, [])
      ∧ stats [] = ⟨0, 0, 0, 0⟩) :=
  ⟨by with_unfolding_all decide,
    C6_thm c6Window FieldName.temperature {} (by with_unfolding_all decide)⟩

/-- C8: `analyzeReading` does not mutate any node's window — in the
state-passing form the registry it returns is the registry it was given, and
in particular every node's window (including the scored node's) has identical
contents before and after the call. -/
theorem C8_thm (ws : Registry) (nodeId : String) (r : Reading)
    (prev : Option Reading) (rand : ℚ) :
    (analyzeReadingSt ws nodeId r prev rand).1 = ws
    ∧ ∀ n : String,
        getWindow (analyzeReadingSt ws nodeId r prev rand).1 n = getWindow ws n :=
  ⟨rfl, fun _ => rfl⟩

/-- C9: `buildAlertsFromReading` is deterministic and stateless — its result
for a given reading and previous reading is independent of the ambient module
state (the window registry and the `Math.random` stream), so any two calls on
equal inputs return equal alert lists (same types, severities, messages, in
the same order). -/
theorem C9_thm (amb amb' : Ambient) (r : Reading) (prev : Option Reading) :
    buildAlertsAmb amb r prev = buildAlertsAmb amb' r prev := rfl

/-- C10: for every reading and previous reading, the alert types of
`buildAlertsFromReading` form a sublist of the fixed order
`[TEMP, RAIN, WIND, PRESSURE, ANOMALY]` (so alerts always appear in that
order), each type occurs at most once (in particular the critical and warning
TEMP tiers are mutually exclusive), and the list holds at most 5 alerts. -/
theorem C10_thm (r : Reading) (prev : Option Reading) :
    List.Sublist ((buildAlertsFromReading r prev).map (fun a => a.type))
      [AlertType.TEMP, AlertType.RAIN, AlertType.WIND, AlertType.PRESSURE, AlertType.ANOMALY]
    ∧ (∀ ty : AlertType,
        ((buildAlertsFromReading r prev).map (fun a => a.type)).count ty ≤ 1)
    ∧ (buildAlertsFromReading r prev).length ≤ 5 := by
  have ht : List.Sublist ((tempAlerts r).map (fun a => a.type)) [AlertType.TEMP] := by
    unfold tempAlerts
    split_ifs <;> simp
  have hra : List.Sublist ((rainAlerts r).map (fun a => a.type)) [AlertType.RAIN] := by
    unfold rainAlerts
    split_ifs <;> simp
  have hwi : List.Sublist ((windAlerts r).map (fun a => a.type)) [AlertType.WIND] := by
    unfold windAlerts
    split_ifs <;> simp
  have hpr : List.Sublist ((pressureAlerts r prev).map (fun a => a.type)) [AlertType.PRESSURE] := by
    rcases prev with _ | pr
    · simp [pressureAlerts]
    · rcases hp1 : pr.pressure with _ | a
      · simp [pressureAlerts, hp1]
      · rcases hp2 : r.pressure with _ | b
        · simp [pressureAlerts, hp1, hp2]
        · simp only [pressureAlerts, hp1, hp2]
          split_ifs <;> simp
  have han : List.Sublist ((anomalyAlerts r).map (fun a => a.type)) [AlertType.ANOMALY] := by
    unfold anomalyAlerts
    split_ifs <;> simp
  have hsub : List.Sublist ((buildAlertsFromReading r prev).map (fun a => a.type))
      [AlertType.TEMP, AlertType.RAIN, AlertType.WIND, AlertType.PRESSURE, AlertType.ANOMALY] := by
    unfold buildAlertsFromReading
    simp only [List.map_append]
    exact (((ht.append hra).append hwi).append hpr).append han
  refine ⟨hsub, ?_, ?_⟩
  · intro ty
    refine le_trans (hsub.count_le ty) ?_
    cases ty <;> simp
  · have := hsub.length_le
    simpa using this

/-- At capacity, `pushWin` evicts the oldest entry (FIFO). -/
theorem pushWin_full {α : Type} (w : List α) (r : α)
    (h : w.length = WINDOW_SIZE) : pushWin w r = w.tail ++ [r] := by
  unfold pushWin
  dsimp only
  rw [if_pos (by simp [h, WINDOW_SIZE])]
  cases w with
  | nil => simp [WINDOW_SIZE] at h
  | cons a t => rfl

/-- Below capacity, `pushWin` appends. -/
theorem pushWin_not_full {α : Type} (w : List α) (r : α)
    (h : w.length < WINDOW_SIZE) : pushWin w r = w ++ [r] := by
  unfold pushWin
  dsimp only
  rw [if_neg (by simp only [List.length_append, List.length_cons, List.length_nil]; omega)]

/-- Folding `pushWin` over a sequence keeps exactly the last `WINDOW_SIZE`
elements of the initial window followed by the sequence. -/
theorem foldl_pushWin {α : Type} :
    ∀ (rs : List α) (w : List α), w.length ≤ WINDOW_SIZE →
      rs.foldl pushWin w = (w ++ rs).drop (w.length + rs.length - WINDOW_SIZE) := by
  intro rs
  induction rs with
  | nil =>
    intro w h
    simp [Nat.sub_eq_zero_of_le h]
  | cons r rs ih =>
    intro w h
    rcases eq_or_lt_of_le h with heq | hlt
    · rw [List.foldl_cons, pushWin_full w r heq]
      rw [ih (w.tail ++ [r]) (by
        simp only [List.length_append, List.length_tail, List.length_cons,
          List.length_nil, heq, WINDOW_SIZE]
        omega)]
      cases w with
      | nil => simp [WINDOW_SIZE] at heq
      | cons a t =>
        have h1 : ((a :: t).tail ++ [r]).length + rs.length - WINDOW_SIZE = rs.length := by
          simp only [List.tail_cons, List.length_append, List.length_cons, List.length_nil]
          simp only [List.length_cons] at heq
          omega
        have h2 : (a :: t).length + (r :: rs).length - WINDOW_SIZE = rs.length + 1 := by
          simp only [List.length_cons] at heq ⊢
          omega
        rw [h1, h2]
        show List.drop rs.length ((t ++ [r]) ++ rs)
            = List.drop (rs.length + 1) ((a :: t) ++ (r :: rs))
        rw [List.append_assoc, List.singleton_append, List.cons_append,
          List.drop_succ_cons]
    · rw [List.foldl_cons, pushWin_not_full w r hlt]
      rw [ih (w ++ [r]) (by simp only [List.length_append, List.length_cons, List.length_nil]; omega)]
      rw [List.append_assoc, List.singleton_append]
      congr 1
      simp only [List.length_append, List.length_cons, List.length_nil]
      omega

/-- Pushes to one node act on that node's window exactly as `pushWin`. -/
theorem getWindow_setWindow (ws : Registry) (n : String) (w : List Reading) :
    getWindow (setWindow ws n w) n = w := by
  induction ws with
  | nil => simp [setWindow, getWindow]
  | cons kv rest ih =>
    obtain ⟨k, v⟩ := kv
    by_cases hk : k = n
    · simp [setWindow, getWindow, hk]
    · simp [setWindow, getWindow, hk, ih]

/-- A node's window after `pushAll` is the `pushWin` fold over its old
window. -/
theorem getWindow_pushAll (ws : Registry) (n : String) (rs : List Reading) :
    getWindow (pushAll ws n rs) n = rs.foldl pushWin (getWindow ws n) := by
  induction rs generalizing ws with
  | nil => rfl
  | cons r rs ih =>
    show getWindow (pushAll (pushToWindow ws n r).1 n rs) n = _
    rw [ih ((pushToWindow ws n r).1)]
    rw [List.foldl_cons]
    congr 1
    exact getWindow_setWindow ws n (pushWin (getWindow ws n) r)

/-- C3: starting from an empty window for a node, after pushing
`WINDOW_SIZE + k` readings via `pushToWindow` the node's window has length
exactly `WINDOW_SIZE` and holds exactly the last `WINDOW_SIZE` pushed readings
in arrival order; after any prefix of the pushes the window length is at most
`WINDOW_SIZE`; and at capacity an insertion evicts the oldest entry (FIFO). -/
theorem C3_thm (ws : Registry) (n : String) (rs : List Reading) (k : ℕ)
    (h0 : getWindow ws n = []) (hlen : rs.length = WINDOW_SIZE + k) :
    (getWindow (pushAll ws n rs) n).length = WINDOW_SIZE
    ∧ getWindow (pushAll ws n rs) n = rs.drop k
    ∧ (∀ rs₁ rs₂ : List Reading, rs = rs₁ ++ rs₂ →
        (getWindow (pushAll ws n rs₁) n).length ≤ WINDOW_SIZE)
    ∧ (∀ (w : List Reading) (r : Reading), w.length = WINDOW_SIZE →
        pushWin w r = w.tail ++ [r]) := by
  have key : getWindow (pushAll ws n rs) n = rs.drop k := by
    rw [getWindow_pushAll, h0, foldl_pushWin rs [] (by simp)]
    simp only [List.nil_append, List.length_nil, Nat.zero_add]
    rw [hlen]
    congr 1
    omega
  refine ⟨?_, key, ?_, fun w r hw => pushWin_full w r hw⟩
  · rw [key, List.length_drop, hlen]
    omega
  · intro rs₁ rs₂ _
    rw [getWindow_pushAll, h0, foldl_pushWin rs₁ [] (by simp)]
    simp only [List.nil_append, List.length_nil, Nat.zero_add, List.length_drop]
    omega

/-- Witness for `C3_thm`: pushing 61 readings into a fresh registry. -/
theorem C3_witness :
    (getWindow emptyRegistry nodeA = [] ∧ c3Readings.length = WINDOW_SIZE + 1)
    ∧ ((getWindow (pushAll emptyRegistry nodeA c3Readings) nodeA).length = WINDOW_SIZE
      ∧ getWindow (pushAll emptyRegistry nodeA c3Readings) nodeA = c3Readings.drop 1
      ∧ (∀ rs₁ rs₂ : List Reading, c3Readings = rs₁ ++ rs₂ →
          (getWindow (pushAll emptyRegistry nodeA rs₁) nodeA).length ≤ WINDOW_SIZE)
      ∧ (∀ (w : List Reading) (r : Reading), w.length = WINDOW_SIZE →
          pushWin w r = w.tail ++ [r])) :=
  ⟨⟨rfl, by simp [c3Readings, WINDOW_SIZE]⟩,
    C3_thm emptyRegistry nodeA c3Readings 1 rfl (by simp [c3Readings, WINDOW_SIZE])⟩

/-- A 3-decimal rounding of a value clamped to `[0.02, 0.98]` stays in
`[0.02, 0.98]` (both bounds are exactly representable). -/
theorem round3R_clamp_range (x : ℝ) :
    (0.02 : ℝ) ≤ round3R (clampR x 0.02 0.98)
    ∧ round3R (clampR x 0.02 0.98) ≤ 0.98 := by
  have h1 : (0.02 : ℝ) ≤ clampR x 0.02 0.98 := le_max_left _ _
  have h2 : clampR x 0.02 0.98 ≤ 0.98 := max_le (by norm_num) (min_le_left _ _)
  have hlo := roundMono (show ((20 : ℤ) : ℝ) ≤ 1000 * clampR x 0.02 0.98 from by
    push_cast
    linarith)
  have hhi := roundMono (show 1000 * clampR x 0.02 0.98 ≤ ((980 : ℤ) : ℝ) from by
    push_cast
    linarith)
  rw [round_intCast] at hlo hhi
  unfold round3R
  constructor
  · have hc : ((20 : ℤ) : ℝ) ≤ ((round (1000 * clampR x 0.02 0.98) : ℤ) : ℝ) := by
      exact_mod_cast hlo
    push_cast at hc
    linarith
  · have hc : ((round (1000 * clampR x 0.02 0.98) : ℤ) : ℝ) ≤ ((980 : ℤ) : ℝ) := by
      exact_mod_cast hhi
    push_cast at hc
    linarith

/-- Mapping `horizon_hours` over predictions built from an enumerated horizon
list recovers the horizons. -/
theorem map_horizon_eq (l : List (ℕ × ℤ)) (F : ℕ × ℤ → Prediction)
    (hF : ∀ x, (F x).horizon_hours = x.2) :
    (l.map F).map (fun p => p.horizon_hours) = l.map Prod.snd := by
  induction l with
  | nil => rfl
  | cons x xs ih => simp [hF, ih]

/-- C7: `predictForNode` returns `none` exactly when the node's window holds
fewer than 3 readings; with at least 3 readings it returns exactly one
`Prediction` per requested horizon, in order, and every prediction's
`extreme_event_probability` lies in `[0.02, 0.98]`, for all values of the
noise inputs and of the fallback clock. -/
theorem C7_thm (ws : Registry) (nodeId : String) (horizons : List ℤ) (now : ℤ)
    (noise : ℕ → Noise) (h : 3 ≤ (getWindow ws nodeId).length) :
    (∀ (ws' : Registry) (n' : String),
        (predictForNode ws' n' horizons now noise).isNone
          = decide ((getWindow ws' n').length < 3))
    ∧ ∃ ps : List Prediction,
        predictForNode ws nodeId horizons now noise = some ps
        ∧ ps.map (fun p => p.horizon_hours) = horizons
        ∧ ps.length = horizons.length
        ∧ ∀ p ∈ ps, (0.02 : ℝ) ≤ p.extreme_event_probability
            ∧ p.extreme_event_probability ≤ 0.98 := by
  constructor
  · intro ws' n'
    unfold predictForNode
    dsimp only
    by_cases hlt : (getWindow ws' n').length < 3
    · rw [if_pos hlt]
      simp [hlt]
    · rw [if_neg hlt]
      simp [hlt]
  · unfold predictForNode
    dsimp only
    rw [if_neg (by omega)]
    refine ⟨_, rfl, ?_, ?_, ?_⟩
    · exact (map_horizon_eq horizons.enum _ (fun x => rfl)).trans (List.enum_map_snd horizons)
    · simp [List.enum_length]
    · intro p hp
      simp only [List.mem_map] at hp
      obtain ⟨x, _, rfl⟩ := hp
      exact round3R_clamp_range _

/-- Witness for `C7_thm` on a registry holding a 3-reading window. -/
theorem C7_witness :
    3 ≤ (getWindow c7Registry nodeA).length
    ∧ ((∀ (ws' : Registry) (n' : String),
        (predictForNode ws' n' [3, 6, 12, 24] 0 (fun _ => ⟨0, 0, 0, 0⟩)).isNone
          = decide ((getWindow ws' n').length < 3))
      ∧ ∃ ps : List Prediction,
          predictForNode c7Registry nodeA [3, 6, 12, 24] 0 (fun _ => ⟨0, 0, 0, 0⟩) = some ps
          ∧ ps.map (fun p => p.horizon_hours) = [3, 6, 12, 24]
          ∧ ps.length = ([3, 6, 12, 24] : List ℤ).length
          ∧ ∀ p ∈ ps, (0.02 : ℝ) ≤ p.extreme_event_probability
              ∧ p.extreme_event_probability ≤ 0.98) := by
  have hyp : 3 ≤ (getWindow c7Registry nodeA).length := by
    rw [show c7Registry = setWindow emptyRegistry nodeA (List.replicate 3 default) from rfl]
    rw [getWindow_setWindow]
    simp
  exact ⟨hyp, C7_thm c7Registry nodeA [3, 6, 12, 24] 0 (fun _ => ⟨0, 0, 0, 0⟩) hyp⟩

end MeteoAI
